import Mathlib

/-!
Verification of the STK500v1 AVR ISP programmer firmware
(`src/pico/stk500v1.c`, `src/pico/avrprog_bitbang.c`, `src/pico/avr_devices.*`).

The C sources are shallowly embedded as pure Lean functions:

* machine integers become `Nat` with an explicit `% 2^w` exactly where the C
  narrows a value (a `(uint16_t)` cast, a `uint8_t` store, a `uint32_t` store);
* the target-side effect of each `avr_*` driver call is recorded as an `Ev`
  event (one event per driver-level operation; `Ev.loadWord` stands for the
  low-byte/high-byte SPI transaction pair of `avr_write_temporary_buffer`,
  `Ev.readSig i` / `Ev.readWord a` for the corresponding read transactions);
* the world visible to the firmware (target RESET line, erase counter, the
  deliberate halt of `avr_erase_memory` past the erase ceiling) is a `World`
  record threaded through the handlers;
* target responses that depend on the attached chip (signature bytes, flash
  contents, the echo of the programming-enable sequence, the fourth byte of a
  raw UNIVERSAL transaction) are supplied by an `Env` record.

`avr_erase_memory`'s `while(true)` halt is modelled by the `World.halted`
flag: once set, the firmware emits nothing further and the parse loop stops,
matching the C function never returning.
-/

/-- Target-side SPI traffic, one constructor per AVR ISP driver operation.
An empty event list means the firmware issued no SPI traffic. -/
inductive Ev where
  | enterProg : Ev
  | leaveProg : Ev
  | readSig : Nat → Ev
  | chipErase : Ev
  | loadWord : Nat → Nat → Ev
  | commitPage : Nat → Ev
  | readWord : Nat → Ev
  | universal : List Nat → Ev
deriving DecidableEq, Repr

/-- The dispatcher's static state in `stk500v1.c`: `current_address`,
`programming`, `page_size_bytes`, `words_per_page`. -/
structure ProgState where
  current_address : Nat
  programming : Bool
  page_size_bytes : Nat
  words_per_page : Nat
deriving DecidableEq, Repr

/-- State of the driver layer (`avrprog_bitbang.c`): the RESET line level,
the `bb_erase_count` counter, and whether the firmware has entered the
deliberate infinite loop of `avr_erase_memory`. -/
structure World where
  resetAsserted : Bool
  eraseCount : Nat
  halted : Bool
deriving DecidableEq, Repr

/-- Behaviour of the attached AVR target: whether the programming-enable
sequence echoes 0x53 within the 8 attempts, the signature bytes, the flash
contents (word address to word value), and the fourth response byte of a raw
UNIVERSAL SPI transaction. -/
structure Env where
  enter_ok : Bool
  sig : Nat → Nat
  flash : Nat → Nat
  universal : List Nat → Nat

/-- One row of the device database in `avr_devices.c`. -/
structure AvrDevice where
  sig0 : Nat
  sig1 : Nat
  sig2 : Nat
  name : String
  flash_size_bytes : Nat
  page_size_bytes : Nat
deriving DecidableEq, Repr

/-- The `devices[]` table of `avr_devices.c`. -/
def devices : List AvrDevice :=
  [⟨0x1E, 0x95, 0x0F, "ATmega328P", 32768, 128⟩,
   ⟨0x1E, 0x93, 0x0B, "ATtiny85", 8192, 64⟩]

/-- Linear scan of `devices[]` by exact 3-byte signature equality
(`avr_lookup_device_by_signature`). -/
def avr_lookup_device_by_signature (sig : List Nat) : Option AvrDevice :=
  devices.find? fun d =>
    d.sig0 = sig.getD 0 0 && d.sig1 = sig.getD 1 0 && d.sig2 = sig.getD 2 0

/-- The three read-signature transactions of `avr_read_signature`; each byte
is stored into a `uint8_t`, hence the `% 256`. -/
def avr_read_signature (env : Env) : List Nat × List Ev :=
  ([env.sig 0 % 256, env.sig 1 % 256, env.sig 2 % 256],
   [Ev.readSig 0, Ev.readSig 1, Ev.readSig 2])

/-- The programming-enable sequence of `avr_enter_programming_mode`: RESET is
released then asserted and up to 8 enable transactions are sent; whether the
0x53 echo ever appears is abstracted into `env.enter_ok`. On failure the C
code releases RESET before returning false. -/
def avr_enter_programming_mode (env : Env) (w : World) : Bool × World × List Ev :=
  if env.enter_ok then (true, { w with resetAsserted := true }, [Ev.enterProg])
  else (false, { w with resetAsserted := false }, [Ev.enterProg])

/-- The RESET release of `avr_leave_programming_mode`. -/
def avr_leave_programming_mode (w : World) : World × List Ev :=
  ({ w with resetAsserted := false }, [Ev.leaveProg])

/-- The chip erase of `avr_erase_memory`: when `bb_erase_count > 200` the C
code enters `while (true) sleep_ms(100);` — modelled by setting `halted`,
with no SPI traffic; otherwise one chip-erase transaction is issued and the
counter incremented. -/
def avr_erase_memory (w : World) : World × List Ev :=
  if 200 < w.eraseCount then ({ w with halted := true }, [])
  else ({ w with eraseCount := w.eraseCount + 1 }, [Ev.chipErase])

/-- The page-buffer word load of `avr_write_temporary_buffer_16` (one event
for the low/high transaction pair); both parameters are `uint16_t`. -/
def avr_write_temporary_buffer_16 (word_address word : Nat) : Ev :=
  Ev.loadWord (word_address % 65536) (word % 65536)

/-- The page commit of `avr_flash_program_memory`; the parameter is
`uint16_t`. -/
def avr_flash_program_memory (word_address : Nat) : List Ev :=
  [Ev.commitPage (word_address % 65536)]

/-- The value read by `avr_read_program_memory`: high byte then low byte of
the flash word; the address parameter is `uint16_t` and the result is a
`uint16_t`. -/
def avr_read_program_memory (env : Env) (word_address : Nat) : Nat × List Ev :=
  (env.flash (word_address % 65536) % 65536, [Ev.readWord (word_address % 65536)])

/-- Parameter table of `get_parameter_value`. -/
def get_parameter_value (param : Nat) : Nat :=
  if param = 0x80 then 0x02
  else if param = 0x81 then 0x01
  else if param = 0x82 then 0x12
  else 0x00

/-- The page-size caching of `cache_device_params`: the state is updated only
when the lookup hits a device with a nonzero page size (`if (dev &&
dev->page_size_bytes)`); otherwise it is left unchanged. -/
def cache_device_params (s : ProgState) (sig : List Nat) : ProgState :=
  match avr_lookup_device_by_signature sig with
  | some dev =>
      if dev.page_size_bytes ≠ 0 then
        { s with page_size_bytes := dev.page_size_bytes,
                 words_per_page := dev.page_size_bytes / 2 }
      else s
  | none => s

/-- Result of one `handle_frame` invocation: updated dispatcher state and
world, the bytes written to the host (empty only when the firmware halted
inside `avr_erase_memory` before reaching its reply), and the SPI traffic. -/
structure HandleOut where
  state : ProgState
  world : World
  resp : List Nat
  events : List Ev
deriving DecidableEq, Repr

/-- The `INSYNC FAILED` reply (`resp_failed`). -/
def respFailed (s : ProgState) (w : World) : HandleOut := ⟨s, w, [0x14, 0x11], []⟩

/-- The `INSYNC OK` reply (`resp_ok_insync`). -/
def respOk (s : ProgState) (w : World) : HandleOut := ⟨s, w, [0x14, 0x10], []⟩

/-- The command dispatcher `handle_frame` of `stk500v1.c`: one branch per
`case` of the C switch, in source order; byte values follow the
`Cmnd_STK_*` / `Resp_STK_*` constants of `stk500v1.h`. -/
def handle_frame (cmd : Nat) (payload : List Nat) (s : ProgState) (w : World)
    (env : Env) : HandleOut :=
  if cmd = 0x30 then respOk s w
  else if cmd = 0x31 then
    ⟨s, w, [0x14, 65, 86, 82, 32, 73, 83, 80, 0x10], []⟩
  else if cmd = 0x41 then
    if payload.length ≠ 1 then respFailed s w
    else ⟨s, w, [0x14, get_parameter_value (payload.getD 0 0), 0x10], []⟩
  else if cmd = 0x40 then
    if payload.length ≠ 2 then respFailed s w else respOk s w
  else if cmd = 0x42 then respOk s w
  else if cmd = 0x45 then respOk s w
  else if cmd = 0x50 then
    if (avr_enter_programming_mode env w).1 then
      ⟨cache_device_params { s with programming := true } (avr_read_signature env).1,
       (avr_enter_programming_mode env w).2.1, [0x14, 0x10],
       (avr_enter_programming_mode env w).2.2 ++ (avr_read_signature env).2⟩
    else ⟨s, (avr_enter_programming_mode env w).2.1, [0x14, 0x11],
          (avr_enter_programming_mode env w).2.2⟩
  else if cmd = 0x51 then
    ⟨{ s with programming := false }, (avr_leave_programming_mode w).1,
     [0x14, 0x10], (avr_leave_programming_mode w).2⟩
  else if cmd = 0x52 then
    if (avr_erase_memory w).1.halted then
      ⟨s, (avr_erase_memory w).1, [], (avr_erase_memory w).2⟩
    else ⟨s, (avr_erase_memory w).1, [0x14, 0x10], (avr_erase_memory w).2⟩
  else if cmd = 0x53 then ⟨s, w, [0x14, 1, 0x10], []⟩
  else if cmd = 0x55 then
    if payload.length ≠ 2 then respFailed s w
    else
      ⟨{ s with current_address :=
           (payload.getD 1 0 * 256 + payload.getD 0 0) % 4294967296 },
       w, [0x14, 0x10], []⟩
  else if cmd = 0x75 then
    ⟨s, w, [0x14] ++ (avr_read_signature env).1 ++ [0x10], (avr_read_signature env).2⟩
  else if cmd = 0x56 then
    if payload.length ≠ 4 then respFailed s w
    else ⟨s, w, [0x14, env.universal payload % 256, 0x10], [Ev.universal payload]⟩
  else if cmd = 0x64 then
    if payload.length < 3 then respFailed s w
    else if ¬(payload.getD 2 0 = 70 ∨ payload.getD 2 0 = 102) ∨
            payload.getD 0 0 * 256 + payload.getD 1 0 ≠ (payload.drop 3).length then
      respFailed s w
    else if s.page_size_bytes < payload.getD 0 0 * 256 + payload.getD 1 0 ∨
            256 < payload.getD 0 0 * 256 + payload.getD 1 0 then
      respFailed s w
    else
      ⟨{ s with current_address :=
           (s.current_address + (payload.getD 0 0 * 256 + payload.getD 1 0) / 2) %
             4294967296 },
       w, [0x14, 0x10],
       ((List.range ((payload.getD 0 0 * 256 + payload.getD 1 0) / 2)).map fun j =>
          avr_write_temporary_buffer_16 j
            ((payload.drop 3).getD (j * 2 + 1) 0 * 256 + (payload.drop 3).getD (j * 2) 0)) ++
         avr_flash_program_memory s.current_address⟩
  else if cmd = 0x74 then
    if payload.length ≠ 3 then respFailed s w
    else if ¬(payload.getD 2 0 = 70 ∨ payload.getD 2 0 = 102) ∨
            payload.getD 0 0 * 256 + payload.getD 1 0 = 0 ∨
            256 < payload.getD 0 0 * 256 + payload.getD 1 0 then
      respFailed s w
    else
      ⟨{ s with current_address :=
           (s.current_address + (payload.getD 0 0 * 256 + payload.getD 1 0 + 1) / 2) %
             4294967296 },
       w,
       [0x14] ++
         ((List.range (payload.getD 0 0 * 256 + payload.getD 1 0)).map fun off =>
           if off % 2 = 1 then
             (avr_read_program_memory env (s.current_address + off / 2)).1 / 256
           else (avr_read_program_memory env (s.current_address + off / 2)).1 % 256) ++
         [0x10],
       (List.range (payload.getD 0 0 * 256 + payload.getD 1 0)).map fun off =>
         Ev.readWord ((s.current_address + off / 2) % 65536)⟩
  else respFailed s w

/-- Expected total frame length (command byte plus trailing 0x20) for the
fixed-length commands, from the `switch (cmd)` of `stk500v1_feed`; `none` for
PROG_PAGE (variable length) and unknown commands. -/
def tableLen (cmd : Nat) : Option Nat :=
  if cmd = 0x30 ∨ cmd = 0x31 ∨ cmd = 0x50 ∨ cmd = 0x51 ∨ cmd = 0x52 ∨
     cmd = 0x53 ∨ cmd = 0x75 then some 2
  else if cmd = 0x41 then some 3
  else if cmd = 0x40 then some 4
  else if cmd = 0x42 then some 22
  else if cmd = 0x45 then some 7
  else if cmd = 0x55 then some 4
  else if cmd = 0x56 then some 6
  else if cmd = 0x74 then some 5
  else none

/-- Outcome of inspecting the head of the RX buffer: drop one byte and retry,
wait for more bytes, or a complete-frame length requirement. -/
inductive HeadClass where
  | drop1 : HeadClass
  | wait : HeadClass
  | need : Nat → HeadClass
deriving DecidableEq, Repr

/-- Head classification of `stk500v1_feed`'s decode loop: stray 0x20 bytes
are dropped; fixed-length commands come from `tableLen`; PROG_PAGE waits for
its 4-byte header, drops a byte on an out-of-range size, and otherwise needs
`1 + 3 + size + 1` bytes; unknown command bytes are dropped. (The C `size <
0` test can never fire: the size is assembled from two unsigned bytes.) -/
def classify : List Nat → HeadClass
  | [] => HeadClass.wait
  | cmd :: rest =>
    if cmd = 0x20 then HeadClass.drop1
    else if (tableLen cmd).isSome then HeadClass.need ((tableLen cmd).getD 0)
    else if cmd = 0x64 then
      if (cmd :: rest).length < 4 then HeadClass.wait
      else if 256 < (cmd :: rest).getD 1 0 * 256 + (cmd :: rest).getD 2 0 then
        HeadClass.drop1
      else
        HeadClass.need
          (1 + 3 + ((cmd :: rest).getD 1 0 * 256 + (cmd :: rest).getD 2 0) + 1)
    else HeadClass.drop1

/-- Number of bytes dropped by the resync of `stk500v1_feed` when the EOP
check fails: up to and including the first 0x20 in the buffer (`memchr`), or
one byte when none is present. -/
def resyncDrop (rx : List Nat) : Nat :=
  match rx.findIdx? (fun b => b = 0x20) with
  | some i => i + 1
  | none => 1

/-- A frame handed to `handle_frame`: the command byte, the payload slice,
and the full consumed frame bytes (command, payload, EOP). -/
structure Dispatch where
  cmd : Nat
  payload : List Nat
  frame : List Nat
deriving DecidableEq, Repr

/-- Result of one iteration of the decode loop: updated buffer/state/world,
the response chunks emitted (each chunk is one contiguous flushed reply), the
frames dispatched, and whether the loop continues. -/
structure StepOut where
  rx : List Nat
  state : ProgState
  world : World
  emissions : List (List Nat)
  dispatched : List Dispatch
  cont : Bool
deriving DecidableEq, Repr

/-- The frame length carried by a `HeadClass.need`; irrelevant otherwise. -/
def needOf : HeadClass → Nat
  | HeadClass.need n => n
  | _ => 0

/-- One iteration of the `while (rx_len > 0)` decode loop of
`stk500v1_feed`. A firmware that has halted inside `avr_erase_memory` makes
no further progress. -/
def parseStep (rx : List Nat) (s : ProgState) (w : World) (env : Env) : StepOut :=
  if w.halted then ⟨rx, s, w, [], [], false⟩
  else if rx.isEmpty then ⟨rx, s, w, [], [], false⟩
  else if classify rx = HeadClass.drop1 then ⟨rx.drop 1, s, w, [], [], true⟩
  else if classify rx = HeadClass.wait then ⟨rx, s, w, [], [], false⟩
  else if rx.length < needOf (classify rx) then ⟨rx, s, w, [], [], false⟩
  else if rx.getD (needOf (classify rx) - 1) 0 ≠ 0x20 then
    ⟨rx.drop (resyncDrop rx), s, w, [[0x15]], [], true⟩
  else if (handle_frame (rx.headD 0)
      ((rx.drop 1).take (needOf (classify rx) - 2)) s w env).world.halted then
    ⟨rx,
     (handle_frame (rx.headD 0) ((rx.drop 1).take (needOf (classify rx) - 2)) s w env).state,
     (handle_frame (rx.headD 0) ((rx.drop 1).take (needOf (classify rx) - 2)) s w env).world,
     [], [], false⟩
  else
    ⟨rx.drop (needOf (classify rx)),
     (handle_frame (rx.headD 0) ((rx.drop 1).take (needOf (classify rx) - 2)) s w env).state,
     (handle_frame (rx.headD 0) ((rx.drop 1).take (needOf (classify rx) - 2)) s w env).world,
     [(handle_frame (rx.headD 0) ((rx.drop 1).take (needOf (classify rx) - 2)) s w env).resp],
     [⟨rx.headD 0, (rx.drop 1).take (needOf (classify rx) - 2),
       rx.take (needOf (classify rx))⟩], true⟩

/-- Accumulated result of running the decode loop to completion. -/
structure LoopOut where
  rx : List Nat
  state : ProgState
  world : World
  emissions : List (List Nat)
  dispatched : List Dispatch
deriving DecidableEq, Repr

/-- The decode loop of `stk500v1_feed`, fuelled: every continuing iteration
drops at least one buffered byte, so `rx.length + 1` fuel always suffices. -/
def feedLoop : Nat → List Nat → ProgState → World → Env → LoopOut
  | 0, rx, s, w, _ => ⟨rx, s, w, [], []⟩
  | fuel + 1, rx, s, w, env =>
    let st := parseStep rx s w env
    if st.cont then
      let rest := feedLoop fuel st.rx st.state st.world env
      ⟨rest.rx, rest.state, rest.world, st.emissions ++ rest.emissions,
       st.dispatched ++ rest.dispatched⟩
    else ⟨st.rx, st.state, st.world, st.emissions, st.dispatched⟩

/-- The parser/dispatcher firmware state: the RX accumulator plus the
dispatcher state and the driver world. -/
structure Machine where
  rx : List Nat
  prog : ProgState
  world : World
deriving DecidableEq, Repr

/-- The initial state established by `stk500v1_init` (dispatcher state,
empty RX buffer) and `avr_bitbang_init`/static initialisation (RESET
released, zero erase count). -/
def stk500v1_init : Machine :=
  ⟨[], ⟨0, false, 128, 64⟩, ⟨false, 0, false⟩⟩

/-- The byte-feed entry point `stk500v1_feed`: incoming bytes (stored into
the `uint8_t` RX buffer, hence `% 256`) are appended up to the 1024-byte
capacity, dropping the overflowing tail, then the decode loop runs. -/
def stk500v1_feed (input : List Nat) (m : Machine) (env : Env) : LoopOut :=
  let bytes := input.map (· % 256)
  let toCopy := min bytes.length (1024 - m.rx.length)
  let rx1 := m.rx ++ bytes.take toCopy
  feedLoop (rx1.length + 1) rx1 m.prog m.world env

/-- A target that always answers zero bytes and enters programming mode. -/
def env0 : Env := ⟨true, fun _ => 0, fun _ => 0, fun _ => 0⟩

/-- An attached ATmega328P (signature 1E 95 0F) with zeroed flash. -/
def envAtmega : Env := ⟨true, fun i => [0x1E, 0x95, 0x0F].getD i 0, fun _ => 0, fun _ => 0⟩

/-- Shape of a well-formed dispatcher reply: begins with INSYNC (0x14) and
ends with OK (0x10) or FAILED (0x11). -/
def goodResp (r : List Nat) : Prop :=
  r.head? = some 0x14 ∧ (r.getLast? = some 0x10 ∨ r.getLast? = some 0x11)

/-- The payload-length-mismatch guard at the top of each `handle_frame`
branch that has one, as a predicate on the command byte and the payload
length it receives. -/
def length_guard_failed (cmd plen : Nat) : Bool :=
  if cmd = 0x41 then plen ≠ 1
  else if cmd = 0x40 then plen ≠ 2
  else if cmd = 0x55 then plen ≠ 2
  else if cmd = 0x56 then plen ≠ 4
  else if cmd = 0x74 then plen ≠ 3
  else if cmd = 0x64 then plen < 3
  else false

/-- Spec scenario S1: GET_SYNC then GET_SIGN_ON. -/
example :
    (stk500v1_feed [0x30, 0x20, 0x31, 0x20] stk500v1_init env0).emissions =
    [[0x14, 0x10], [0x14, 65, 86, 82, 32, 73, 83, 80, 0x10]] := by decide

/-- Spec scenario S2: ENTER_PROGMODE then READ_SIGN on an ATmega328P. -/
example :
    (stk500v1_feed [0x50, 0x20, 0x75, 0x20] stk500v1_init envAtmega).emissions =
    [[0x14, 0x10], [0x14, 0x1E, 0x95, 0x0F, 0x10]] := by decide

theorem take_getLast_eq (l : List Nat) (n : Nat) (h1 : 1 ≤ n) (h2 : n ≤ l.length) :
    (l.take n).getLast? = some (l.getD (n - 1) 0) := by
  rw [List.getLast?_eq_getElem?]
  have hlen : (l.take n).length = n := by simp [List.length_take]; omega
  rw [hlen, List.getElem?_take]
  have hlt : n - 1 < n := by omega
  have hl : n - 1 < l.length := by omega
  simp [hlt, List.getD, List.getElem?_eq_getElem hl]

theorem handle_frame_resp_shape (cmd : Nat) (payload : List Nat) (s : ProgState)
    (w : World) (env : Env) :
    goodResp (handle_frame cmd payload s w env).resp ∨
      ((handle_frame cmd payload s w env).resp = [] ∧
        (handle_frame cmd payload s w env).world.halted = true) := by
  unfold handle_frame
  by_cases h1 : cmd = 0x30
  · rw [if_pos h1]; exact Or.inl ⟨rfl, Or.inl rfl⟩
  rw [if_neg h1]
  by_cases h2 : cmd = 0x31
  · rw [if_pos h2]; exact Or.inl ⟨rfl, Or.inl rfl⟩
  rw [if_neg h2]
  by_cases h3 : cmd = 0x41
  · rw [if_pos h3]
    by_cases h3a : payload.length ≠ 1
    · rw [if_pos h3a]; exact Or.inl ⟨rfl, Or.inr rfl⟩
    · rw [if_neg h3a]; exact Or.inl ⟨rfl, Or.inl rfl⟩
  rw [if_neg h3]
  by_cases h4 : cmd = 0x40
  · rw [if_pos h4]
    by_cases h4a : payload.length ≠ 2
    · rw [if_pos h4a]; exact Or.inl ⟨rfl, Or.inr rfl⟩
    · rw [if_neg h4a]; exact Or.inl ⟨rfl, Or.inl rfl⟩
  rw [if_neg h4]
  by_cases h5 : cmd = 0x42
  · rw [if_pos h5]; exact Or.inl ⟨rfl, Or.inl rfl⟩
  rw [if_neg h5]
  by_cases h6 : cmd = 0x45
  · rw [if_pos h6]; exact Or.inl ⟨rfl, Or.inl rfl⟩
  rw [if_neg h6]
  by_cases h7 : cmd = 0x50
  · rw [if_pos h7]
    by_cases h7a : (avr_enter_programming_mode env w).1 = true
    · rw [if_pos h7a]; exact Or.inl ⟨rfl, Or.inl rfl⟩
    · rw [if_neg h7a]; exact Or.inl ⟨rfl, Or.inr rfl⟩
  rw [if_neg h7]
  by_cases h8 : cmd = 0x51
  · rw [if_pos h8]; exact Or.inl ⟨rfl, Or.inl rfl⟩
  rw [if_neg h8]
  by_cases h9 : cmd = 0x52
  · rw [if_pos h9]
    by_cases h9a : (avr_erase_memory w).1.halted = true
    · rw [if_pos h9a]; exact Or.inr ⟨rfl, h9a⟩
    · rw [if_neg h9a]; exact Or.inl ⟨rfl, Or.inl rfl⟩
  rw [if_neg h9]
  by_cases h10 : cmd = 0x53
  · rw [if_pos h10]; exact Or.inl ⟨rfl, Or.inl rfl⟩
  rw [if_neg h10]
  by_cases h11 : cmd = 0x55
  · rw [if_pos h11]
    by_cases h11a : payload.length ≠ 2
    · rw [if_pos h11a]; exact Or.inl ⟨rfl, Or.inr rfl⟩
    · rw [if_neg h11a]; exact Or.inl ⟨rfl, Or.inl rfl⟩
  rw [if_neg h11]
  by_cases h12 : cmd = 0x75
  · rw [if_pos h12]; exact Or.inl ⟨rfl, Or.inl (List.getLast?_concat _)⟩
  rw [if_neg h12]
  by_cases h13 : cmd = 0x56
  · rw [if_pos h13]
    by_cases h13a : payload.length ≠ 4
    · rw [if_pos h13a]; exact Or.inl ⟨rfl, Or.inr rfl⟩
    · rw [if_neg h13a]; exact Or.inl ⟨rfl, Or.inl rfl⟩
  rw [if_neg h13]
  by_cases h14 : cmd = 0x64
  · rw [if_pos h14]
    by_cases h14a : payload.length < 3
    · rw [if_pos h14a]; exact Or.inl ⟨rfl, Or.inr rfl⟩
    rw [if_neg h14a]
    by_cases h14b : ¬(payload.getD 2 0 = 70 ∨ payload.getD 2 0 = 102) ∨
        payload.getD 0 0 * 256 + payload.getD 1 0 ≠ (payload.drop 3).length
    · rw [if_pos h14b]; exact Or.inl ⟨rfl, Or.inr rfl⟩
    rw [if_neg h14b]
    by_cases h14c : s.page_size_bytes < payload.getD 0 0 * 256 + payload.getD 1 0 ∨
        256 < payload.getD 0 0 * 256 + payload.getD 1 0
    · rw [if_pos h14c]; exact Or.inl ⟨rfl, Or.inr rfl⟩
    · rw [if_neg h14c]; exact Or.inl ⟨rfl, Or.inl rfl⟩
  rw [if_neg h14]
  by_cases h15 : cmd = 0x74
  · rw [if_pos h15]
    by_cases h15a : payload.length ≠ 3
    · rw [if_pos h15a]; exact Or.inl ⟨rfl, Or.inr rfl⟩
    rw [if_neg h15a]
    by_cases h15b : ¬(payload.getD 2 0 = 70 ∨ payload.getD 2 0 = 102) ∨
        payload.getD 0 0 * 256 + payload.getD 1 0 = 0 ∨
        256 < payload.getD 0 0 * 256 + payload.getD 1 0
    · rw [if_pos h15b]; exact Or.inl ⟨rfl, Or.inr rfl⟩
    · rw [if_neg h15b]; exact Or.inl ⟨rfl, Or.inl (List.getLast?_concat _)⟩
  rw [if_neg h15]
  exact Or.inl ⟨rfl, Or.inr rfl⟩

theorem parseStep_emissions_good (rx : List Nat) (s : ProgState) (w : World)
    (env : Env) (e : List Nat) :
    e ∈ (parseStep rx s w env).emissions → goodResp e ∨ e = [0x15] := by
  intro he
  unfold parseStep at he
  by_cases h1 : w.halted = true
  · rw [if_pos h1] at he; exact absurd he (List.not_mem_nil e)
  rw [if_neg h1] at he
  by_cases h2 : rx.isEmpty = true
  · rw [if_pos h2] at he; exact absurd he (List.not_mem_nil e)
  rw [if_neg h2] at he
  by_cases h3 : classify rx = HeadClass.drop1
  · rw [if_pos h3] at he; exact absurd he (List.not_mem_nil e)
  rw [if_neg h3] at he
  by_cases h4 : classify rx = HeadClass.wait
  · rw [if_pos h4] at he; exact absurd he (List.not_mem_nil e)
  rw [if_neg h4] at he
  by_cases h5 : rx.length < needOf (classify rx)
  · rw [if_pos h5] at he; exact absurd he (List.not_mem_nil e)
  rw [if_neg h5] at he
  by_cases h6 : rx.getD (needOf (classify rx) - 1) 0 ≠ 0x20
  · rw [if_pos h6] at he
    rw [List.mem_singleton.mp he]
    exact Or.inr rfl
  rw [if_neg h6] at he
  by_cases h7 : (handle_frame (rx.headD 0)
      ((rx.drop 1).take (needOf (classify rx) - 2)) s w env).world.halted = true
  · rw [if_pos h7] at he; exact absurd he (List.not_mem_nil e)
  rw [if_neg h7] at he
  rw [List.mem_singleton.mp he]
  rcases handle_frame_resp_shape (rx.headD 0)
      ((rx.drop 1).take (needOf (classify rx) - 2)) s w env with hg | hg
  · exact Or.inl hg
  · exact absurd hg.2 h7

theorem feedLoop_emissions_good (fuel : Nat) :
    ∀ (rx : List Nat) (s : ProgState) (w : World) (env : Env) (e : List Nat),
      e ∈ (feedLoop fuel rx s w env).emissions → goodResp e ∨ e = [0x15] := by
  induction fuel with
  | zero => intro rx s w env e he; simp [feedLoop] at he
  | succ fuel ih =>
    intro rx s w env e he
    rw [feedLoop] at he
    split_ifs at he with hc
    · rcases List.mem_append.mp he with h | h
      · exact parseStep_emissions_good rx s w env e h
      · exact ih _ _ _ _ _ h
    · exact parseStep_emissions_good rx s w env e he

/-- C1: every complete frame the dispatcher processes produces exactly one
contiguous reply chunk, and every chunk the firmware ever emits either begins
with INSYNC (0x14) and ends with OK (0x10) or FAILED (0x11), or is the single
byte NOSYNC (0x15) emitted on a framing error; no handler path emits any
other response shape. -/
theorem stk500v1_response_envelope (input : List Nat) (m : Machine) (env : Env)
    (e : List Nat) (he : e ∈ (stk500v1_feed input m env).emissions) :
    goodResp e ∨ e = [0x15] := by
  unfold stk500v1_feed at he
  exact feedLoop_emissions_good _ _ _ _ _ _ he

/-- Witness for C1 at the concrete GET_SYNC exchange `30 20`. -/
theorem stk500v1_response_envelope_witness :
    goodResp [0x14, 0x10] ∨ [0x14, 0x10] = [0x15] :=
  stk500v1_response_envelope [0x30, 0x20] stk500v1_init env0 [0x14, 0x10] (by decide)

/-- C6: processing LEAVE_PROGMODE clears the programming flag, invokes the
AVR ISP driver's leave operation (releasing the target's RESET line, so that
the target is running afterwards), and replies OK. -/
theorem stk500v1_leave_progmode (payload : List Nat) (s : ProgState) (w : World)
    (env : Env) :
    (handle_frame 0x51 payload s w env).state.programming = false ∧
    (handle_frame 0x51 payload s w env).events = [Ev.leaveProg] ∧
    (handle_frame 0x51 payload s w env).resp = [0x14, 0x10] ∧
    (handle_frame 0x51 payload s w env).world.resetAsserted = false := by
  simp [handle_frame, avr_leave_programming_mode]

/-- C3 counterexample: with the erase counter exactly at the claimed ceiling
of 200 the code still issues the chip-erase SPI command and increments the
counter — the source checks `bb_erase_count > 200`, not `erase_count < 200`. -/
theorem avr_erase_ceiling_cex :
    (avr_erase_memory ⟨false, 200, false⟩).2 = [Ev.chipErase] ∧
    (avr_erase_memory ⟨false, 200, false⟩).1.eraseCount = 201 ∧
    ¬(200 < 200) ∧ ([Ev.chipErase] : List Ev) ≠ [] := by decide

/-- C3 (amended): `avr_erase_memory` proceeds whenever the erase counter is
at most 200 and halts (with no SPI traffic) once the counter exceeds 200;
each performed erase issues exactly one chip-erase command and increments
the counter by exactly one. -/
theorem avr_erase_ceiling (w : World) :
    (avr_erase_memory w).2 = (if 200 < w.eraseCount then [] else [Ev.chipErase]) ∧
    (avr_erase_memory w).1.eraseCount =
      (if 200 < w.eraseCount then w.eraseCount else w.eraseCount + 1) ∧
    (avr_erase_memory w).1.halted = (w.halted || decide (200 < w.eraseCount)) := by
  by_cases h : 200 < w.eraseCount <;> simp [avr_erase_memory, h]

/-- C2 counterexample: in the freshly initialised state, whose programming
flag is false, a CHIP_ERASE frame still issues the chip-erase SPI command —
`handle_frame` never reads the `programming` flag. -/
theorem stk500v1_progmode_gating_cex :
    stk500v1_init.prog.programming = false ∧
    (handle_frame 0x52 [] stk500v1_init.prog stk500v1_init.world env0).events =
      [Ev.chipErase] ∧
    ([Ev.chipErase] : List Ev) ≠ [] := by decide

/-- C2 (amended): the dispatcher does not gate CHIP_ERASE or PROG_PAGE on
`in_programming_mode`: even with the flag false, a CHIP_ERASE frame issues
the chip-erase SPI command whenever the erase ceiling is not yet exceeded,
and a valid PROG_PAGE frame issues its page-buffer load and page-commit SPI
traffic. -/
theorem stk500v1_progmode_not_gating (s : ProgState) (w : World) (env : Env)
    (x y : Nat) (hprog : s.programming = false) (hcnt : w.eraseCount ≤ 200)
    (hpage : 2 ≤ s.page_size_bytes) :
    (handle_frame 0x52 [] s w env).events = [Ev.chipErase] ∧
    (handle_frame 0x64 [0, 2, 70, x, y] s w env).events =
      [Ev.loadWord 0 ((y * 256 + x) % 65536),
       Ev.commitPage (s.current_address % 65536)] := by
  constructor
  · have h : ¬200 < w.eraseCount := by omega
    simp [handle_frame, avr_erase_memory, h]
    split <;> rfl
  · have h : ¬s.page_size_bytes < 2 := by omega
    simp [handle_frame, avr_write_temporary_buffer_16, avr_flash_program_memory, h, List.range_succ]

/-- Witness for C2's amended theorem at the initial state. -/
theorem stk500v1_progmode_not_gating_witness :
    (handle_frame 0x52 [] stk500v1_init.prog stk500v1_init.world env0).events =
      [Ev.chipErase] ∧
    (handle_frame 0x64 [0, 2, 70, 0xAD, 0xDE] stk500v1_init.prog stk500v1_init.world
        env0).events = [Ev.loadWord 0 57005, Ev.commitPage 0] := by
  obtain ⟨h1, h2⟩ := stk500v1_progmode_not_gating stk500v1_init.prog stk500v1_init.world
    env0 0xAD 0xDE rfl (by decide) (by decide)
  exact ⟨h1, h2.trans (by decide)⟩

/-- C9 counterexample: entering programming mode with an unknown target
signature leaves the cached page size unchanged (here 64, left over from a
previous ATtiny85 session) rather than resetting it to 128 as the claim
states. -/
theorem stk500v1_enter_progmode_cex :
    avr_lookup_device_by_signature (avr_read_signature env0).1 = none ∧
    (handle_frame 0x50 [] ⟨0, false, 64, 32⟩ ⟨false, 0, false⟩
        env0).state.page_size_bytes = 64 ∧
    (64 : Nat) ≠ 128 := by decide

/-- C9 (amended): on success ENTER_PROGMODE reads the signature, looks up
the device profile, caches the profile's page size on a hit with a nonzero
page size and leaves the cached page size unchanged on a miss, sets the
programming flag, and replies OK (RESET stays asserted); on failure it
replies FAILED and leaves the dispatcher state unchanged. -/
theorem stk500v1_enter_progmode_behaviour (s : ProgState) (w : World) (env : Env)
    (payload : List Nat) :
    (env.enter_ok = true →
      (handle_frame 0x50 payload s w env).resp = [0x14, 0x10] ∧
      (handle_frame 0x50 payload s w env).state.programming = true ∧
      (handle_frame 0x50 payload s w env).state.current_address = s.current_address ∧
      (handle_frame 0x50 payload s w env).state.page_size_bytes =
        (match avr_lookup_device_by_signature (avr_read_signature env).1 with
         | some dev =>
             if dev.page_size_bytes ≠ 0 then dev.page_size_bytes else s.page_size_bytes
         | none => s.page_size_bytes) ∧
      (handle_frame 0x50 payload s w env).world.resetAsserted = true) ∧
    (env.enter_ok = false →
      (handle_frame 0x50 payload s w env).resp = [0x14, 0x11] ∧
      (handle_frame 0x50 payload s w env).state = s) := by
  constructor
  · intro he
    rcases hl : avr_lookup_device_by_signature (avr_read_signature env).1 with _ | dev <;>
      simp [handle_frame, avr_enter_programming_mode, he, cache_device_params, hl] <;>
      split_ifs <;> simp_all
  · intro he
    simp [handle_frame, avr_enter_programming_mode, he]

/-- Witness for C9's amended theorem: an ATmega328P is detected and its
128-byte page size replaces the previously cached 64. -/
theorem stk500v1_enter_progmode_behaviour_witness :
    (handle_frame 0x50 [] ⟨5, false, 64, 32⟩ ⟨false, 0, false⟩ envAtmega).resp =
      [0x14, 0x10] ∧
    (handle_frame 0x50 [] ⟨5, false, 64, 32⟩ ⟨false, 0, false⟩
        envAtmega).state.programming = true ∧
    (handle_frame 0x50 [] ⟨5, false, 64, 32⟩ ⟨false, 0, false⟩
        envAtmega).state.current_address = 5 ∧
    (handle_frame 0x50 [] ⟨5, false, 64, 32⟩ ⟨false, 0, false⟩
        envAtmega).state.page_size_bytes = 128 ∧
    (handle_frame 0x50 [] ⟨5, false, 64, 32⟩ ⟨false, 0, false⟩
        envAtmega).world.resetAsserted = true := by
  have h := (stk500v1_enter_progmode_behaviour ⟨5, false, 64, 32⟩ ⟨false, 0, false⟩
    envAtmega []).1 rfl
  exact ⟨h.1, h.2.1, h.2.2.1, by rw [h.2.2.2.1]; decide, h.2.2.2.2⟩

theorem handle_frame_prog_page (sizeHi sizeLo memtype : Nat) (data : List Nat)
    (s : ProgState) (w : World) (env : Env) :
    handle_frame 0x64 (sizeHi :: sizeLo :: memtype :: data) s w env =
      if (sizeHi :: sizeLo :: memtype :: data).length < 3 then respFailed s w
      else if ¬(memtype = 70 ∨ memtype = 102) ∨ sizeHi * 256 + sizeLo ≠ data.length then
        respFailed s w
      else if s.page_size_bytes < sizeHi * 256 + sizeLo ∨
          256 < sizeHi * 256 + sizeLo then
        respFailed s w
      else
        ⟨{ s with current_address :=
             (s.current_address + (sizeHi * 256 + sizeLo) / 2) % 4294967296 },
         w, [0x14, 0x10],
         ((List.range ((sizeHi * 256 + sizeLo) / 2)).map fun j =>
            avr_write_temporary_buffer_16 j
              (data.getD (j * 2 + 1) 0 * 256 + data.getD (j * 2) 0)) ++
           avr_flash_program_memory s.current_address⟩ := rfl

/-- C4: a PROG_PAGE frame replies FAILED with no target SPI operation unless
the memtype is F or f, the size is at most the smaller of the page size and
256, and the size equals the data-body length; when all three hold it loads
the little-endian words of the body into the page buffer, commits at the
current word address, and replies OK. -/
theorem stk500v1_prog_page_validation (s : ProgState) (w : World) (env : Env)
    (sizeHi sizeLo memtype : Nat) (data : List Nat)
    (hcur : s.current_address < 65536) (hdata : ∀ b ∈ data, b < 256) :
    (¬((memtype = 70 ∨ memtype = 102) ∧
        sizeHi * 256 + sizeLo ≤ min s.page_size_bytes 256 ∧
        sizeHi * 256 + sizeLo = data.length) →
      (handle_frame 0x64 (sizeHi :: sizeLo :: memtype :: data) s w env).resp =
        [0x14, 0x11] ∧
      (handle_frame 0x64 (sizeHi :: sizeLo :: memtype :: data) s w env).events = []) ∧
    (((memtype = 70 ∨ memtype = 102) ∧
        sizeHi * 256 + sizeLo ≤ min s.page_size_bytes 256 ∧
        sizeHi * 256 + sizeLo = data.length) →
      (handle_frame 0x64 (sizeHi :: sizeLo :: memtype :: data) s w env).resp =
        [0x14, 0x10] ∧
      (handle_frame 0x64 (sizeHi :: sizeLo :: memtype :: data) s w env).events =
        ((List.range ((sizeHi * 256 + sizeLo) / 2)).map fun k =>
          Ev.loadWord k (data.getD (k * 2 + 1) 0 * 256 + data.getD (k * 2) 0)) ++
        [Ev.commitPage s.current_address]) := by
  have hgetD : ∀ i, data.getD i 0 < 256 := by
    intro i
    by_cases hin : i < data.length
    · rw [List.getD_eq_getElem data 0 hin]
      exact hdata _ (List.getElem_mem hin)
    · rw [List.getD_eq_default data 0 (by omega)]
      decide
  have hL : ¬((sizeHi :: sizeLo :: memtype :: data).length < 3) := by simp
  constructor
  · intro hnv
    rw [handle_frame_prog_page, if_neg hL]
    by_cases h2 : ¬(memtype = 70 ∨ memtype = 102) ∨ sizeHi * 256 + sizeLo ≠ data.length
    · rw [if_pos h2]; exact ⟨rfl, rfl⟩
    · rw [if_neg h2]
      push_neg at h2
      have h3 : s.page_size_bytes < sizeHi * 256 + sizeLo ∨
          256 < sizeHi * 256 + sizeLo := by
        rcases h2 with ⟨hA, hsz⟩
        by_contra h4
        push_neg at h4
        exact hnv ⟨hA, by omega, hsz⟩
      rw [if_pos h3]; exact ⟨rfl, rfl⟩
  · intro hv
    obtain ⟨hA, hle, heq⟩ := hv
    rw [handle_frame_prog_page, if_neg hL]
    have h2 : ¬(¬(memtype = 70 ∨ memtype = 102) ∨ sizeHi * 256 + sizeLo ≠ data.length) := by
      push_neg; exact ⟨hA, heq⟩
    rw [if_neg h2]
    have h3 : ¬(s.page_size_bytes < sizeHi * 256 + sizeLo ∨
        256 < sizeHi * 256 + sizeLo) := by omega
    rw [if_neg h3]
    refine ⟨rfl, ?_⟩
    show ((List.range ((sizeHi * 256 + sizeLo) / 2)).map fun j =>
        avr_write_temporary_buffer_16 j
          (data.getD (j * 2 + 1) 0 * 256 + data.getD (j * 2) 0)) ++
      avr_flash_program_memory s.current_address = _
    simp only [avr_flash_program_memory, Nat.mod_eq_of_lt hcur]
    congr 1
    refine List.map_congr_left ?_
    intro k hk
    rw [List.mem_range] at hk
    unfold avr_write_temporary_buffer_16
    rw [Nat.mod_eq_of_lt (show k < 65536 by omega),
        Nat.mod_eq_of_lt (show data.getD (k * 2 + 1) 0 * 256 + data.getD (k * 2) 0 < 65536 by
          have b1 := hgetD (k * 2 + 1)
          have b2 := hgetD (k * 2)
          omega)]

/-- Witness for C4: a valid two-byte flash page write succeeds and an
EEPROM-memtype write is refused without SPI traffic. -/
theorem stk500v1_prog_page_validation_witness :
    ((handle_frame 0x64 [0, 2, 69, 0xAD, 0xDE] stk500v1_init.prog stk500v1_init.world
        env0).resp = [0x14, 0x11] ∧
      (handle_frame 0x64 [0, 2, 69, 0xAD, 0xDE] stk500v1_init.prog stk500v1_init.world
        env0).events = []) ∧
    ((handle_frame 0x64 [0, 2, 70, 0xAD, 0xDE] stk500v1_init.prog stk500v1_init.world
        env0).resp = [0x14, 0x10] ∧
      (handle_frame 0x64 [0, 2, 70, 0xAD, 0xDE] stk500v1_init.prog stk500v1_init.world
        env0).events =
        ((List.range 1).map fun k =>
          Ev.loadWord k ([0xAD, 0xDE].getD (k * 2 + 1) 0 * 256 +
            [0xAD, 0xDE].getD (k * 2) 0)) ++ [Ev.commitPage 0]) := by
  constructor
  · exact (stk500v1_prog_page_validation stk500v1_init.prog stk500v1_init.world env0
      0 2 69 [0xAD, 0xDE] (by decide) (by decide)).1 (by decide)
  · exact (stk500v1_prog_page_validation stk500v1_init.prog stk500v1_init.world env0
      0 2 70 [0xAD, 0xDE] (by decide) (by decide)).2 (by decide)

theorem handle_frame_load_address (lo hi : Nat) (s : ProgState) (w : World)
    (env : Env) :
    handle_frame 0x55 [lo, hi] s w env =
      ⟨{ s with current_address := (hi * 256 + lo) % 4294967296 }, w,
       [0x14, 0x10], []⟩ := rfl

/-- C5 counterexample: after LOAD_ADDRESS(0xFFFF), two PROG_PAGE frames of
one word each commit at word addresses 0xFFFF and then 0 — not 0x10000 as
the claim's `A + W` requires — because the commit SPI command carries a
16-bit word address. -/
theorem stk500v1_autoincrement_cex :
    (handle_frame 0x64 [0, 2, 70, 0xAA, 0xBB]
        (handle_frame 0x55 [0xFF, 0xFF] stk500v1_init.prog stk500v1_init.world
          env0).state
        stk500v1_init.world env0).events.getLast? = some (Ev.commitPage 65535) ∧
    (handle_frame 0x64 [0, 2, 70, 0xAA, 0xBB]
        (handle_frame 0x55 [0xFF, 0xFF] stk500v1_init.prog stk500v1_init.world
          env0).state
        stk500v1_init.world env0).state.current_address = 65536 ∧
    (handle_frame 0x64 [0, 2, 70, 0xCC, 0xDD]
        (handle_frame 0x64 [0, 2, 70, 0xAA, 0xBB]
          (handle_frame 0x55 [0xFF, 0xFF] stk500v1_init.prog stk500v1_init.world
            env0).state
          stk500v1_init.world env0).state
        stk500v1_init.world env0).events.getLast? = some (Ev.commitPage 0) ∧
    Ev.commitPage 0 ≠ Ev.commitPage 65536 := by decide

/-- C5 (amended): for any word address A < 2^16 and word count W with 2W a
valid page size, the sequence LOAD_ADDRESS(A); PROG_PAGE(2W); PROG_PAGE(2W)
commits the first page at word address A and the second at word address
(A + W) mod 2^16 — equal to A + W whenever A + W < 2^16 — while the
dispatcher's address cursor advances to A + 2W. -/
theorem stk500v1_autoincrement (s : ProgState) (w : World) (env : Env)
    (A W : Nat) (d1 d2 : List Nat) (hA : A < 65536)
    (hpage : 2 * W ≤ min s.page_size_bytes 256)
    (hd1 : d1.length = 2 * W) (hd2 : d2.length = 2 * W) :
    (handle_frame 0x64 (2 * W / 256 :: 2 * W % 256 :: 70 :: d1)
        (handle_frame 0x55 [A % 256, A / 256] s w env).state
        (handle_frame 0x55 [A % 256, A / 256] s w env).world env).events.getLast? =
      some (Ev.commitPage A) ∧
    (handle_frame 0x64 (2 * W / 256 :: 2 * W % 256 :: 70 :: d2)
        (handle_frame 0x64 (2 * W / 256 :: 2 * W % 256 :: 70 :: d1)
          (handle_frame 0x55 [A % 256, A / 256] s w env).state
          (handle_frame 0x55 [A % 256, A / 256] s w env).world env).state
        (handle_frame 0x64 (2 * W / 256 :: 2 * W % 256 :: 70 :: d1)
          (handle_frame 0x55 [A % 256, A / 256] s w env).state
          (handle_frame 0x55 [A % 256, A / 256] s w env).world env).world
        env).events.getLast? = some (Ev.commitPage ((A + W) % 65536)) ∧
    (handle_frame 0x64 (2 * W / 256 :: 2 * W % 256 :: 70 :: d2)
        (handle_frame 0x64 (2 * W / 256 :: 2 * W % 256 :: 70 :: d1)
          (handle_frame 0x55 [A % 256, A / 256] s w env).state
          (handle_frame 0x55 [A % 256, A / 256] s w env).world env).state
        (handle_frame 0x64 (2 * W / 256 :: 2 * W % 256 :: 70 :: d1)
          (handle_frame 0x55 [A % 256, A / 256] s w env).state
          (handle_frame 0x55 [A % 256, A / 256] s w env).world env).world
        env).state.current_address = A + 2 * W := by
  have hsz : 2 * W / 256 * 256 + 2 * W % 256 = 2 * W := by omega
  have h1 : (handle_frame 0x55 [A % 256, A / 256] s w env).state =
      { s with current_address := A } := by
    rw [handle_frame_load_address]
    have : (A / 256 * 256 + A % 256) % 4294967296 = A := by omega
    rw [this]
  have hw1 : (handle_frame 0x55 [A % 256, A / 256] s w env).world = w := by
    rw [handle_frame_load_address]
  have hstep : ∀ (cur : Nat) (d : List Nat), d.length = 2 * W → cur < 4294967040 →
      handle_frame 0x64 (2 * W / 256 :: 2 * W % 256 :: 70 :: d)
        { s with current_address := cur } w env =
      ⟨{ s with current_address := cur + W }, w, [0x14, 0x10],
       ((List.range W).map fun j =>
          avr_write_temporary_buffer_16 j
            (d.getD (j * 2 + 1) 0 * 256 + d.getD (j * 2) 0)) ++
         [Ev.commitPage (cur % 65536)]⟩ := by
    intro cur d hd hcur
    rw [handle_frame_prog_page, hsz]
    rw [if_neg (by simp), if_neg (by push_neg; exact ⟨Or.inl rfl, hd.symm⟩),
        if_neg (by show ¬(s.page_size_bytes < 2 * W ∨ 256 < 2 * W); omega)]
    have hW2 : 2 * W / 2 = W := by omega
    have hmod : (cur + 2 * W / 2) % 4294967296 = cur + W := by omega
    rw [hmod, hW2]
    rfl
  rw [h1, hw1, hstep A d1 hd1 (by omega)]
  dsimp only
  rw [hstep (A + W) d2 hd2 (by omega)]
  dsimp only
  refine ⟨?_, ?_, by omega⟩
  · rw [List.getLast?_concat, Nat.mod_eq_of_lt hA]
  · rw [List.getLast?_concat]

/-- Witness for C5's amended theorem at A = 16, W = 1. -/
theorem stk500v1_autoincrement_witness :
    (handle_frame 0x64 [0, 2, 70, 0xAD, 0xDE]
        (handle_frame 0x55 [16, 0] stk500v1_init.prog stk500v1_init.world env0).state
        (handle_frame 0x55 [16, 0] stk500v1_init.prog stk500v1_init.world env0).world
        env0).events.getLast? = some (Ev.commitPage 16) ∧
    (handle_frame 0x64 [0, 2, 70, 0xBE, 0xEF]
        (handle_frame 0x64 [0, 2, 70, 0xAD, 0xDE]
          (handle_frame 0x55 [16, 0] stk500v1_init.prog stk500v1_init.world env0).state
          (handle_frame 0x55 [16, 0] stk500v1_init.prog stk500v1_init.world env0).world
          env0).state
        (handle_frame 0x64 [0, 2, 70, 0xAD, 0xDE]
          (handle_frame 0x55 [16, 0] stk500v1_init.prog stk500v1_init.world env0).state
          (handle_frame 0x55 [16, 0] stk500v1_init.prog stk500v1_init.world env0).world
          env0).world
        env0).events.getLast? = some (Ev.commitPage 17) ∧
    (handle_frame 0x64 [0, 2, 70, 0xBE, 0xEF]
        (handle_frame 0x64 [0, 2, 70, 0xAD, 0xDE]
          (handle_frame 0x55 [16, 0] stk500v1_init.prog stk500v1_init.world env0).state
          (handle_frame 0x55 [16, 0] stk500v1_init.prog stk500v1_init.world env0).world
          env0).state
        (handle_frame 0x64 [0, 2, 70, 0xAD, 0xDE]
          (handle_frame 0x55 [16, 0] stk500v1_init.prog stk500v1_init.world env0).state
          (handle_frame 0x55 [16, 0] stk500v1_init.prog stk500v1_init.world env0).world
          env0).world
        env0).state.current_address = 18 := by
  have h := stk500v1_autoincrement stk500v1_init.prog stk500v1_init.world env0 16 1
    [0xAD, 0xDE] [0xBE, 0xEF] (by decide) (by decide) (by decide) (by decide)
  exact ⟨h.1, h.2.1.trans (by decide), h.2.2⟩

theorem handle_frame_read_page (sizeHi sizeLo memtype : Nat) (s : ProgState)
    (w : World) (env : Env) :
    handle_frame 0x74 [sizeHi, sizeLo, memtype] s w env =
      if ¬(memtype = 70 ∨ memtype = 102) ∨ sizeHi * 256 + sizeLo = 0 ∨
          256 < sizeHi * 256 + sizeLo then respFailed s w
      else
        ⟨{ s with current_address :=
             (s.current_address + (sizeHi * 256 + sizeLo + 1) / 2) % 4294967296 },
         w,
         [0x14] ++
           ((List.range (sizeHi * 256 + sizeLo)).map fun off =>
             if off % 2 = 1 then
               (avr_read_program_memory env (s.current_address + off / 2)).1 / 256
             else (avr_read_program_memory env (s.current_address + off / 2)).1 % 256) ++
           [0x10],
         (List.range (sizeHi * 256 + sizeLo)).map fun off =>
           Ev.readWord ((s.current_address + off / 2) % 65536)⟩ := rfl

/-- C8: a valid flash READ_PAGE of any size in (0, 256] — odd sizes included
— replies with one byte per offset, the low byte of the word read at
current_word_address + off/2 for even offsets and the high byte for odd
offsets, and afterwards advances the word cursor by (size + 1) / 2. -/
theorem stk500v1_read_page_bytes (s : ProgState) (w : World) (env : Env)
    (sizeHi sizeLo memtype : Nat) (hmem : memtype = 70 ∨ memtype = 102)
    (hpos : 0 < sizeHi * 256 + sizeLo) (hle : sizeHi * 256 + sizeLo ≤ 256)
    (hcur : s.current_address + 256 ≤ 4294967296) :
    (handle_frame 0x74 [sizeHi, sizeLo, memtype] s w env).resp =
      [0x14] ++
        ((List.range (sizeHi * 256 + sizeLo)).map fun off =>
          if off % 2 = 1 then
            (avr_read_program_memory env (s.current_address + off / 2)).1 / 256
          else (avr_read_program_memory env (s.current_address + off / 2)).1 % 256) ++
        [0x10] ∧
    (handle_frame 0x74 [sizeHi, sizeLo, memtype] s w env).state.current_address =
      s.current_address + (sizeHi * 256 + sizeLo + 1) / 2 := by
  rw [handle_frame_read_page,
      if_neg (by push_neg; exact ⟨hmem, by omega, by omega⟩)]
  refine ⟨rfl, ?_⟩
  show (s.current_address + (sizeHi * 256 + sizeLo + 1) / 2) % 4294967296 = _
  omega

/-- Witness for C8 at a three-byte (odd) read from the initial state. -/
theorem stk500v1_read_page_bytes_witness :
    (handle_frame 0x74 [0, 3, 70] stk500v1_init.prog stk500v1_init.world
        env0).resp =
      [0x14] ++
        ((List.range (0 * 256 + 3)).map fun off =>
          if off % 2 = 1 then
            (avr_read_program_memory env0 (stk500v1_init.prog.current_address + off / 2)).1 / 256
          else
            (avr_read_program_memory env0 (stk500v1_init.prog.current_address + off / 2)).1 % 256) ++
        [0x10] ∧
    (handle_frame 0x74 [0, 3, 70] stk500v1_init.prog stk500v1_init.world
        env0).state.current_address = 2 :=
  stk500v1_read_page_bytes stk500v1_init.prog stk500v1_init.world env0 0 3 70
    (Or.inl rfl) (by decide) (by decide) (by decide)

theorem parseStep_dispatched_spec (rx : List Nat) (s : ProgState) (w : World)
    (env : Env) (d : Dispatch)
    (hd : d ∈ (parseStep rx s w env).dispatched) :
    ∃ n, classify rx = HeadClass.need n ∧ n ≤ rx.length ∧
      rx.getD (n - 1) 0 = 0x20 ∧
      d = ⟨rx.headD 0, (rx.drop 1).take (n - 2), rx.take n⟩ := by
  unfold parseStep at hd
  by_cases h1 : w.halted = true
  · rw [if_pos h1] at hd; exact absurd hd (List.not_mem_nil d)
  rw [if_neg h1] at hd
  by_cases h2 : rx.isEmpty = true
  · rw [if_pos h2] at hd; exact absurd hd (List.not_mem_nil d)
  rw [if_neg h2] at hd
  by_cases h3 : classify rx = HeadClass.drop1
  · rw [if_pos h3] at hd; exact absurd hd (List.not_mem_nil d)
  rw [if_neg h3] at hd
  by_cases h4 : classify rx = HeadClass.wait
  · rw [if_pos h4] at hd; exact absurd hd (List.not_mem_nil d)
  rw [if_neg h4] at hd
  by_cases h5 : rx.length < needOf (classify rx)
  · rw [if_pos h5] at hd; exact absurd hd (List.not_mem_nil d)
  rw [if_neg h5] at hd
  by_cases h6 : rx.getD (needOf (classify rx) - 1) 0 ≠ 0x20
  · rw [if_pos h6] at hd; exact absurd hd (List.not_mem_nil d)
  rw [if_neg h6] at hd
  by_cases h7 : (handle_frame (rx.headD 0)
      ((rx.drop 1).take (needOf (classify rx) - 2)) s w env).world.halted = true
  · rw [if_pos h7] at hd; exact absurd hd (List.not_mem_nil d)
  rw [if_neg h7] at hd
  rcases hc : classify rx with _ | _ | n
  · exact absurd hc h3
  · exact absurd hc h4
  · rw [hc] at h5 h6 hd
    simp only [needOf] at h5 h6 hd ⊢
    exact ⟨n, rfl, by omega, not_not.mp h6, List.mem_singleton.mp hd⟩

theorem feedLoop_dispatched_spec (fuel : Nat) :
    ∀ (rx : List Nat) (s : ProgState) (w : World) (env : Env) (d : Dispatch),
      d ∈ (feedLoop fuel rx s w env).dispatched →
      ∃ rx0 n, classify rx0 = HeadClass.need n ∧ n ≤ rx0.length ∧
        rx0.getD (n - 1) 0 = 0x20 ∧
        d = ⟨rx0.headD 0, (rx0.drop 1).take (n - 2), rx0.take n⟩ := by
  induction fuel with
  | zero => intro rx s w env d hd; simp [feedLoop] at hd
  | succ fuel ih =>
    intro rx s w env d hd
    rw [feedLoop] at hd
    split_ifs at hd with hc
    · rcases List.mem_append.mp hd with h | h
      · obtain ⟨n, h⟩ := parseStep_dispatched_spec rx s w env d h
        exact ⟨rx, n, h⟩
      · exact ih _ _ _ _ _ h
    · obtain ⟨n, h⟩ := parseStep_dispatched_spec rx s w env d hd
      exact ⟨rx, n, h⟩

theorem tableLen_ge2 (c n : Nat) (h : tableLen c = some n) : 2 ≤ n := by
  unfold tableLen at h
  split_ifs at h <;> simp_all <;> omega

theorem tableLen_guard (c n : Nat) (h : tableLen c = some n) :
    length_guard_failed c (n - 2) = false := by
  unfold tableLen at h
  split_ifs at h with h1 h2 h3 h4 h5 h6 h7 h8
  · rcases h1 with h1 | h1 | h1 | h1 | h1 | h1 | h1 <;> subst h1 <;>
      injection h with h <;> rw [← h] <;> decide
  · subst h2; injection h with h; rw [← h]; decide
  · subst h3; injection h with h; rw [← h]; decide
  · subst h4; injection h with h; rw [← h]; decide
  · subst h5; injection h with h; rw [← h]; decide
  · subst h6; injection h with h; rw [← h]; decide
  · subst h7; injection h with h; rw [← h]; decide
  · subst h8; injection h with h; rw [← h]; decide

theorem classify_need_cases (rx : List Nat) (n : Nat)
    (h : classify rx = HeadClass.need n) :
    tableLen (rx.headD 0) = some n ∨ (rx.headD 0 = 0x64 ∧ 5 ≤ n) := by
  rcases rx with _ | ⟨c, rest⟩
  · simp [classify] at h
  show tableLen c = some n ∨ (c = 0x64 ∧ 5 ≤ n)
  simp only [classify] at h
  by_cases hc20 : c = 0x20
  · rw [if_pos hc20] at h; exact absurd h (by simp)
  rw [if_neg hc20] at h
  by_cases ht : (tableLen c).isSome = true
  · rw [if_pos ht] at h
    injection h with h
    obtain ⟨m, hm⟩ := Option.isSome_iff_exists.mp ht
    rw [hm] at h
    simp only [Option.getD_some] at h
    rw [h] at hm
    exact Or.inl hm
  rw [if_neg ht] at h
  by_cases h64 : c = 0x64
  · rw [if_pos h64] at h
    by_cases hlen : (c :: rest).length < 4
    · rw [if_pos hlen] at h; exact absurd h (by simp)
    rw [if_neg hlen] at h
    by_cases hsz : 256 < (c :: rest).getD 1 0 * 256 + (c :: rest).getD 2 0
    · rw [if_pos hsz] at h; exact absurd h (by simp)
    · rw [if_neg hsz] at h
      injection h with h
      exact Or.inr ⟨h64, by omega⟩
  · rw [if_neg h64] at h; exact absurd h (by simp)

/-- C10: every frame dispatched through `stk500v1_feed` carries exactly the
payload length fixed by the parser's length table (and at least 3 bytes for
PROG_PAGE), so the payload-length-mismatch FAILED guards inside the
GET_PARAMETER, SET_PARAMETER, LOAD_ADDRESS, UNIVERSAL, READ_PAGE and
PROG_PAGE handlers never fire on a dispatched frame. -/
theorem stk500v1_dispatch_lengths (input : List Nat) (m : Machine) (env : Env)
    (d : Dispatch) (hd : d ∈ (stk500v1_feed input m env).dispatched) :
    (tableLen d.cmd = none ∨ tableLen d.cmd = some (d.payload.length + 2)) ∧
    (d.cmd = 0x64 → 3 ≤ d.payload.length) ∧
    length_guard_failed d.cmd d.payload.length = false := by
  unfold stk500v1_feed at hd
  obtain ⟨rx0, n, hc, hn, heop, hdeq⟩ := feedLoop_dispatched_spec _ _ _ _ env d hd
  subst hdeq
  dsimp only
  rcases classify_need_cases rx0 n hc with ht | ⟨h64, hge⟩
  · have h2 : 2 ≤ n := tableLen_ge2 _ _ ht
    have hlen : ((rx0.drop 1).take (n - 2)).length = n - 2 := by
      simp only [List.length_take, List.length_drop]
      omega
    rw [hlen]
    refine ⟨Or.inr ?_, ?_, ?_⟩
    · rw [ht]
      congr 1
      omega
    · intro h64x
      rw [h64x] at ht
      simp [tableLen] at ht
    · exact tableLen_guard _ _ ht
  · have hlen : ((rx0.drop 1).take (n - 2)).length = n - 2 := by
      simp only [List.length_take, List.length_drop]
      omega
    rw [hlen, h64]
    refine ⟨Or.inl (by decide), fun _ => by omega, ?_⟩
    simp only [length_guard_failed]
    norm_num
    omega

/-- Witness for C10 at a dispatched GET_PARAMETER frame. -/
theorem stk500v1_dispatch_lengths_witness :
    length_guard_failed 0x41
      ((⟨0x41, [0x80], [0x41, 0x80, 0x20]⟩ : Dispatch).payload.length) = false := by
  have h := stk500v1_dispatch_lengths [0x41, 0x80, 0x20] stk500v1_init env0
    ⟨0x41, [0x80], [0x41, 0x80, 0x20]⟩ (by decide)
  exact h.2.2

/-- C7: a frame is consumed and dispatched only when the byte at position
expected_length - 1 is 0x20 (every dispatched frame ends in 0x20), and when
that byte differs from 0x20 the parser emits the single NOSYNC byte and
resyncs by dropping up to and including the next 0x20 (or one byte if none
is buffered) without dispatching. -/
theorem stk500v1_frame_eop_law :
    (∀ (input : List Nat) (m : Machine) (env : Env) (d : Dispatch),
        d ∈ (stk500v1_feed input m env).dispatched →
        d.frame.getLast? = some 0x20) ∧
    (∀ (rx : List Nat) (s : ProgState) (w : World) (env : Env) (n : Nat),
        w.halted = false → classify rx = HeadClass.need n → ¬rx.length < n →
        rx.getD (n - 1) 0 ≠ 0x20 →
        parseStep rx s w env =
          ⟨rx.drop (resyncDrop rx), s, w, [[0x15]], [], true⟩) := by
  constructor
  · intro input m env d hd
    unfold stk500v1_feed at hd
    obtain ⟨rx0, n, hc, hn, heop, hdeq⟩ := feedLoop_dispatched_spec _ _ _ _ env d hd
    subst hdeq
    dsimp only
    have h1 : 1 ≤ n := by
      rcases classify_need_cases rx0 n hc with ht | ⟨_, hge⟩
      · have := tableLen_ge2 _ _ ht; omega
      · omega
    rw [take_getLast_eq rx0 n h1 hn, heop]
  · intro rx s w env n hw hc hlen heop
    have hne : rx.isEmpty = false := by
      rcases rx with _ | _
      · simp [classify] at hc
      · rfl
    unfold parseStep
    rw [if_neg (by simp [hw]), if_neg (by simp [hne]), if_neg (by simp [hc]),
        if_neg (by simp [hc]),
        if_neg (show ¬rx.length < needOf (classify rx) by
          rw [hc]; simp only [needOf]; exact hlen),
        if_pos (show rx.getD (needOf (classify rx) - 1) 0 ≠ 0x20 by
          rw [hc]; simp only [needOf]; exact heop)]

/-- Witness for C7: a dispatched GET_SYNC frame ends in 0x20, and a GET_SYNC
frame whose terminator byte is wrong triggers the NOSYNC resync step. -/
theorem stk500v1_frame_eop_law_witness :
    (⟨0x30, [], [0x30, 0x20]⟩ : Dispatch).frame.getLast? = some 0x20 ∧
    parseStep [0x30, 0x31] stk500v1_init.prog stk500v1_init.world env0 =
      ⟨[0x31], stk500v1_init.prog, stk500v1_init.world, [[0x15]], [], true⟩ := by
  constructor
  · exact stk500v1_frame_eop_law.1 [0x30, 0x20] stk500v1_init env0
      ⟨0x30, [], [0x30, 0x20]⟩ (by decide)
  · have h := stk500v1_frame_eop_law.2 [0x30, 0x31] stk500v1_init.prog
      stk500v1_init.world env0 2 rfl (by decide) (by decide) (by decide)
    exact h.trans (by decide)
